import Mathlib

/-!
Shallow embedding of `src/loguru_rich_sink/sink.py` (RichSink: run-counter
persistence plus Rich-panel rendering) and proofs about it.

The filesystem is modelled as the existence of the logs directory plus the
optional content of the run-counter file; the console is modelled as the list
of plain-text strings printed to it.  Python exceptions are modelled with
`Except`.
-/

namespace LoguruRichSink

/-- Python exceptions that the sink code can raise. -/
inductive PyErr where
  | fileNotFound
  | valueError
  | notImplemented
  | keyError (key : String)
  deriving DecidableEq, Repr

/-! ### Decimal strings: Python `str(int)` and `int(str)` -/

/-- Little-endian decimal digits of `n`, computed with explicit fuel so the
definition is structural (kernel-reducible).  `digitsRevFuel n n` is total. -/
def digitsRevFuel : Nat → Nat → List Nat
  | 0, _ => []
  | _ + 1, 0 => []
  | f + 1, n + 1 => ((n + 1) % 10) :: digitsRevFuel f ((n + 1) / 10)

/-- Little-endian decimal digits of `n`. -/
def natDigitsRev (n : Nat) : List Nat :=
  digitsRevFuel n n

/-- The decimal string of a natural number (Python `str(n)` for `n ≥ 0`). -/
def natToDec (n : Nat) : String :=
  if n = 0 then "0" else String.mk (((natDigitsRev n).reverse).map Nat.digitChar)

/-- Python `str(v)` for an `int` value `v`. -/
def pyStr (v : Int) : String :=
  if v < 0 then "-" ++ natToDec v.natAbs else natToDec v.toNat

/-- The numeric value of a single decimal digit character, if it is one. -/
def digVal (c : Char) : Option Nat :=
  if '0' ≤ c ∧ c ≤ '9' then some (c.toNat - 48) else none

/-- Parse every character of `cs` as a decimal digit. -/
def parseDigitsM : List Char → Option (List Nat)
  | [] => some []
  | c :: cs =>
    match digVal c, parseDigitsM cs with
    | some d, some ds => some (d :: ds)
    | _, _ => none

/-- The value of a most-significant-first digit list. -/
def decValue (ds : List Nat) : Nat :=
  ds.foldl (fun a d => 10 * a + d) 0

/-- Python `int(s)` on the strings this program stores: an optional leading
minus sign followed by at least one decimal digit; `none` models a raised
`ValueError`. -/
def pyInt (s : String) : Option Int :=
  match s.data with
  | [] => none
  | c :: cs =>
    if c = '-' then
      match cs with
      | [] => none
      | _ => (parseDigitsM cs).map (fun ds => -((decValue ds : Nat) : Int))
    else (parseDigitsM (c :: cs)).map (fun ds => ((decValue ds : Nat) : Int))

theorem digitsRevFuel_eq_digits (f : Nat) :
    ∀ n : Nat, n ≤ f → digitsRevFuel f n = Nat.digits 10 n := by
  induction f with
  | zero =>
    intro n hn
    interval_cases n
    simp [digitsRevFuel]
  | succ f ih =>
    intro n hn
    match n with
    | 0 => simp [digitsRevFuel]
    | m + 1 =>
      have hdiv : (m + 1) / 10 ≤ f := by
        have h1 : (m + 1) / 10 < m + 1 := Nat.div_lt_self (Nat.succ_pos m) (by norm_num)
        omega
      rw [digitsRevFuel, ih _ hdiv, Nat.digits_def' (by norm_num : 1 < 10) (Nat.succ_pos m)]

theorem natDigitsRev_eq_digits (n : Nat) : natDigitsRev n = Nat.digits 10 n :=
  digitsRevFuel_eq_digits n n le_rfl

theorem digVal_digitChar {d : Nat} (hd : d < 10) : digVal (Nat.digitChar d) = some d := by
  interval_cases d <;> decide

theorem digitChar_ne_minus {d : Nat} (hd : d < 10) : Nat.digitChar d ≠ '-' := by
  interval_cases d <;> decide

theorem parseDigitsM_map_digitChar (ds : List Nat) (h : ∀ d ∈ ds, d < 10) :
    parseDigitsM (ds.map Nat.digitChar) = some ds := by
  induction ds with
  | nil => rfl
  | cons d ds ih =>
    have hd : d < 10 := h d (List.mem_cons_self d ds)
    have hds : ∀ x ∈ ds, x < 10 := fun x hx => h x (List.mem_cons_of_mem d hx)
    simp only [List.map_cons, parseDigitsM, digVal_digitChar hd, ih hds]

theorem decValue_reverse_eq_ofDigits (ds : List Nat) :
    decValue ds.reverse = Nat.ofDigits 10 ds := by
  induction ds with
  | nil => rfl
  | cons d ds ih =>
    have h : decValue (ds.reverse ++ [d]) = 10 * decValue ds.reverse + d := by
      simp [decValue, List.foldl_append]
    simp only [List.reverse_cons, h, ih, Nat.ofDigits_cons]
    ring

/-- Parsing the decimal rendering of `n` gives back `n`. -/
theorem pyInt_natToDec (n : Nat) : pyInt (natToDec n) = some (n : Int) := by
  by_cases h0 : n = 0
  · subst h0; decide
  · have hne : Nat.digits 10 n ≠ [] := Nat.digits_ne_nil_iff_ne_zero.mpr h0
    have hlt : ∀ d ∈ Nat.digits 10 n, d < 10 :=
      fun d hd => Nat.digits_lt_base (by norm_num) hd
    unfold natToDec
    rw [if_neg h0, natDigitsRev_eq_digits]
    set ds := Nat.digits 10 n with hds
    have hrevne : ds.reverse ≠ [] := by
      simpa using hne
    obtain ⟨d, rest, hcons⟩ : ∃ d rest, ds.reverse = d :: rest :=
      List.exists_cons_of_ne_nil hrevne
    have hdlt : ∀ x ∈ ds.reverse, x < 10 := fun x hx => hlt x (List.mem_reverse.mp hx)
    have hparse : parseDigitsM (ds.reverse.map Nat.digitChar) = some ds.reverse :=
      parseDigitsM_map_digitChar ds.reverse hdlt
    have hval : decValue ds.reverse = n := by
      rw [decValue_reverse_eq_ofDigits, hds, Nat.ofDigits_digits]
    have hd10 : d < 10 := hdlt d (hcons ▸ List.mem_cons_self d rest)
    unfold pyInt
    simp only [String.mk, hcons, List.map_cons]
    rw [if_neg (digitChar_ne_minus hd10)]
    rw [← List.map_cons, ← hcons, hparse]
    simp [hval]

/-- Parsing `pyStr` of a non-negative int gives the value back. -/
theorem pyInt_pyStr_ofNat (n : Nat) : pyInt (pyStr (n : Int)) = some (n : Int) := by
  unfold pyStr
  rw [if_neg (by exact_mod_cast Int.not_lt.mpr (Int.ofNat_nonneg n))]
  simpa using pyInt_natToDec n

/-! ### Filesystem and console models -/

/-- Module-level path constants (`CWD / "logs"` and `LOGS_DIR / "run.txt"`),
kept as plain strings: they only appear in console messages here. -/
def LOGS_DIR : String := "logs"

/-- Path of the run-counter file, used in console messages. -/
def RUN_FILE : String := "logs/run.txt"

/-- The part of the filesystem the sink touches: whether `LOGS_DIR` exists,
and the content of `RUN_FILE` (`none` = the file is absent). -/
structure FS where
  logsDir : Bool
  runFile : Option String
  deriving DecidableEq, Repr

/-- `open(RUN_FILE, "w")` followed by writing `content`: fails with
`FileNotFoundError` when the parent directory is absent. -/
def openWrite (fs : FS) (content : String) : Except PyErr Unit × FS :=
  if fs.logsDir then (Except.ok (), { fs with runFile := some content })
  else (Except.error PyErr.fileNotFound, fs)

/-- `open(RUN_FILE, "r")` followed by `int(f.read())`. -/
def openReadInt (fs : FS) : Except PyErr Int :=
  match fs.runFile with
  | none => Except.error PyErr.fileNotFound
  | some s =>
    match pyInt s with
    | none => Except.error PyErr.valueError
    | some n => Except.ok n

/-! ### RunTracker operations (`RichSink.setup` / `read` / `write` /
`increment`)

Each operation returns its result (with `Except` for a raised exception), the
filesystem after the call, and the list of plain-text messages printed to the
console during the call.  `trackRun` is the sink's `self.track_run` flag. -/

namespace RichSink

/-- `RichSink.setup`: ensure the logs directory and run file exist (creating
the file with content `"0"`), then read and return the stored value; `none`
when tracking is disabled. -/
def setup (trackRun : Bool) (fs : FS) :
    Except PyErr (Option Int) × FS × List String :=
  if trackRun then
    let (fs1, out1) :=
      if fs.logsDir then (fs, ([] : List String))
      else ({ fs with logsDir := true }, ["Created Logs Directory: " ++ LOGS_DIR])
    let (res2, fs2, out2) :=
      match fs1.runFile with
      | some _ => (Except.ok (), fs1, ([] : List String))
      | none =>
        match openWrite fs1 "0" with
        | (Except.ok _, fs') => (Except.ok (), fs', ["Created Run File, Set to 0"])
        | (Except.error e, fs') => ((Except.error e : Except PyErr Unit), fs', [])
    match res2 with
    | Except.error e => (Except.error e, fs2, out1 ++ out2)
    | Except.ok _ =>
      match openReadInt fs2 with
      | Except.error e => (Except.error e, fs2, out1 ++ out2)
      | Except.ok n => (Except.ok (some n), fs2, out1 ++ out2)
  else (Except.ok none, fs, [])

/-- `RichSink.read`: self-heal a missing run file via `setup`, then read and
return the stored value; `none` when tracking is disabled. -/
def read (trackRun : Bool) (fs : FS) :
    Except PyErr (Option Int) × FS × List String :=
  if trackRun then
    let (res1, fs1, out1) :=
      match fs.runFile with
      | some _ => (Except.ok (), fs, ([] : List String))
      | none =>
        match setup trackRun fs with
        | (Except.ok _, fs', out) =>
          (Except.ok (), fs', "Run File Not Found, Creating..." :: out)
        | (Except.error e, fs', out) =>
          ((Except.error e : Except PyErr Unit), fs',
            "Run File Not Found, Creating..." :: out)
    match res1 with
    | Except.error e => (Except.error e, fs1, out1)
    | Except.ok _ =>
      match openReadInt fs1 with
      | Except.error e => (Except.error e, fs1, out1)
      | Except.ok n => (Except.ok (some n), fs1, out1)
  else (Except.ok none, fs, [])

/-- `RichSink.write`: persist `str(run)` to the run file when tracking is
enabled. -/
def write (trackRun : Bool) (v : Int) (fs : FS) : Except PyErr Unit × FS :=
  if trackRun then openWrite fs (pyStr v) else (Except.ok (), fs)

/-- `RichSink.increment`: read the current value, add 1, persist and return
it; `none` when tracking is disabled or `read` returned `None`. -/
def increment (trackRun : Bool) (fs : FS) :
    Except PyErr (Option Int) × FS × List String :=
  if trackRun then
    match read trackRun fs with
    | (Except.error e, fs1, out1) => (Except.error e, fs1, out1)
    | (Except.ok none, fs1, out1) => (Except.ok none, fs1, out1)
    | (Except.ok (some n), fs1, out1) =>
      match write trackRun (n + 1) fs1 with
      | (Except.ok _, fs2) => (Except.ok (some (n + 1)), fs2, out1)
      | (Except.error e, fs2) => (Except.error e, fs2, out1)
  else (Except.ok none, fs, [])

end RichSink

/-! ### Rich styles and styled text -/

/-- A Rich `Style`: each attribute is `none` when unset. -/
structure Style where
  color : Option String := none
  bgcolor : Option String := none
  bold : Option Bool := none
  dim : Option Bool := none
  italic : Option Bool := none
  reverse : Option Bool := none
  deriving DecidableEq, Repr

/-- Rich style combination `s + t`: attributes set in `t` override `s`. -/
def Style.add (s t : Style) : Style where
  color := t.color.elim s.color some
  bgcolor := t.bgcolor.elim s.bgcolor some
  bold := t.bold.elim s.bold some
  dim := t.dim.elim s.dim some
  italic := t.italic.elim s.italic some
  reverse := t.reverse.elim s.reverse some

/-- A `rich_gradient.Text`: plain text, gradient colors, construction style,
plus the `highlight_words` and `stylize` operations applied to it, in order. -/
structure GText where
  plain : String
  colors : List String := []
  style : Style := {}
  highlights : List (String × Style) := []
  overlays : List Style := []
  deriving DecidableEq, Repr

/-- `Text.highlight_words(words, style)`. -/
def GText.highlightWords (t : GText) (w : String) (s : Style) : GText :=
  { t with highlights := t.highlights ++ [(w, s)] }

/-- `Text.stylize(style)`. -/
def GText.stylize (t : GText) (s : Style) : GText :=
  { t with overlays := t.overlays ++ [s] }

namespace RichSink

/-- `RichSink.LEVEL_STYLES`, as written in the source. -/
def LEVEL_STYLES : List (String × Style) :=
  [("TRACE", { dim := some true }),
   ("DEBUG", { color := some "#aaaaaa" }),
   ("INFO", { color := some "#00afff" }),
   ("SUCCESS", { bold := some true, color := some "#00ff00" }),
   ("WARNING", { bold := some true, color := some "#ffaf00" }),
   ("ERROR", { bold := some true, color := some "#ff5000" }),
   ("CRITICAL", { color := some "#ffffff", bgcolor := some "#ff0000", bold := some true })]

/-- `RichSink.GRADIENTS`, as written in the source. -/
def GRADIENTS : List (String × List String) :=
  [("TRACE", ["#888888", "#aaaaaa", "#cccccc"]),
   ("DEBUG", ["#338888", "#55aaaa", "#77cccc"]),
   ("INFO", ["#008fff", "#00afff", "#00cfff"]),
   ("SUCCESS", ["#00aa00", "#00ff00", "#afff00"]),
   ("WARNING", ["#ffaa00", "#ffcc00", "#ffff00"]),
   ("ERROR", ["#ff0000", "#ff5500", "#ff7700"]),
   ("CRITICAL", ["#ff0000", "#ff005f", "#ff00af"])]

end RichSink

/-- The style string `"italic #666666"` used on the title separators. -/
def sepStyle : Style := { italic := some true, color := some "#666666" }

/-- The style string `"dim #aaaaaa"` used on the subtitle colons. -/
def colonStyle : Style := { dim := some true, color := some "#aaaaaa" }

/-- `Style(reverse=True)`. -/
def reverseStyle : Style := { reverse := some true }

/-- `Style(bold=True)` / style string `"bold"`. -/
def boldStyle : Style := { bold := some true }

/-- The fields of a Loguru record that `RichSink.__call__` consumes.  The
timestamp is external; its two `strftime` renderings are carried as opaque
strings. -/
structure Record where
  level : String
  fileName : String
  line : Nat
  message : String
  timeHMS : String
  timeAMPM : String
  deriving DecidableEq, Repr

/-- The assembled subtitle: plain text plus its `highlight_words` calls. -/
structure SubText where
  plain : String
  highlights : List (String × Style) := []
  deriving DecidableEq, Repr

/-- The Rich `Panel` built by `RichSink.__call__`. -/
structure Panel where
  body : GText
  title : GText
  titleAlign : String
  subtitle : SubText
  subtitleAlign : String
  borderStyle : Style
  padding : Nat × Nat
  deriving DecidableEq, Repr

/-- The plain text a console print of the panel contributes to the capture:
its title, body and subtitle text. -/
def Panel.plainText (p : Panel) : String :=
  p.title.plain ++ "\n" ++ p.body.plain ++ "\n" ++ p.subtitle.plain

/-- The in-memory state of a `RichSink` after construction. -/
structure SinkSt where
  track_run : Bool
  run : Option Int
  deriving DecidableEq, Repr

/-- A Python value passed for the `track_run` flag (`bool` or not). -/
inductive PyVal where
  | bool (b : Bool)
  | int (n : Int)
  | str (s : String)
  | pynone
  deriving DecidableEq, Repr

namespace RichSink

/-- The `track_run` property setter: accepts exactly `bool` values and raises
`NotImplementedError` on anything else. -/
def trackRunSetter : PyVal → Except PyErr Bool
  | PyVal.bool b => Except.ok b
  | _ => Except.error PyErr.notImplemented

/-- `RichSink.__init__(track_run, run)`: validate the flag, then (when
tracking and `run is None`) load the run value from disk, self-healing via
`read`, falling back to `setup` on `FileNotFoundError`. -/
def init (trackRunArg : PyVal) (runArg : Option Int) (fs : FS) :
    Except PyErr SinkSt × FS × List String :=
  match trackRunSetter trackRunArg with
  | Except.error e => (Except.error e, fs, [])
  | Except.ok tr =>
    if tr then
      match runArg with
      | some r => (Except.ok { track_run := tr, run := some r }, fs, [])
      | none =>
        match read tr fs with
        | (Except.ok v, fs1, out1) =>
          (Except.ok { track_run := tr, run := v }, fs1, out1)
        | (Except.error PyErr.fileNotFound, fs1, out1) =>
          match setup tr fs1 with
          | (Except.ok v, fs2, out2) =>
            (Except.ok { track_run := tr, run := v }, fs2, out1 ++ out2)
          | (Except.error e, fs2, out2) => (Except.error e, fs2, out1 ++ out2)
        | (Except.error e, fs1, out1) => (Except.error e, fs1, out1)
    else (Except.ok { track_run := tr, run := runArg }, fs, [])

/-- The panel title as built in `RichSink.__call__`:
`Text(f" {level} | {file} | Line {line} ", colors=colors)`, then
`highlight_words("|", style="italic #666666")`, then
`stylize(Style(reverse=True))`. -/
def mkTitle (level fileName : String) (line : Nat) (colors : List String) : GText :=
  ((GText.mk (" " ++ level ++ " | " ++ fileName ++ " | Line " ++ pyStr (line : Int) ++ " ")
      colors {} [] []).highlightWords "|" sepStyle).stylize reverseStyle

/-- The run-number lookup in `RichSink.__call__`'s subtitle block:
`run = self.read()`, then `if run is None: run = self.setup()`, skipped
entirely when tracking is disabled. -/
def runForSubtitle (trackRun : Bool) (fs : FS) :
    Except PyErr (Option Int) × FS × List String :=
  if trackRun then
    match read trackRun fs with
    | (Except.error e, fs1, out1) => (Except.error e, fs1, out1)
    | (Except.ok none, fs1, out1) =>
      match setup trackRun fs1 with
      | (Except.error e, fs2, out2) => (Except.error e, fs2, out1 ++ out2)
      | (Except.ok v, fs2, out2) => (Except.ok v, fs2, out1 ++ out2)
    | (Except.ok (some r), fs1, out1) => (Except.ok (some r), fs1, out1)
  else (Except.ok none, fs, [])

/-- `RichSink.__call__`: render one record to a panel, reading (and possibly
self-healing) the run counter when tracking is enabled.  Returns the updated
sink state and the panel, the filesystem after the call, and the plain-text
console prints (the panel print last). -/
def call (st : SinkSt) (fs : FS) (rec : Record) :
    Except PyErr (SinkSt × Panel) × FS × List String :=
  match List.lookup rec.level GRADIENTS with
  | none => (Except.error (PyErr.keyError rec.level), fs, [])
  | some colors =>
    match List.lookup rec.level LEVEL_STYLES with
    | none => (Except.error (PyErr.keyError rec.level), fs, [])
    | some style =>
      let title : GText := mkTitle rec.level rec.fileName rec.line colors
      match runForSubtitle st.track_run fs with
      | (Except.error e, fs', out) => (Except.error e, fs', out)
      | (Except.ok runv, fs', out) =>
        let st' : SinkSt :=
          match runv with
          | some r => { st with run := some r }
          | none => st
        let runPrefix : String :=
          match runv with
          | some r => "Run " ++ pyStr r ++ " | "
          | none => ""
        let subtitle : SubText :=
          { plain := runPrefix ++ rec.timeHMS ++ rec.timeAMPM,
            highlights := [(":", colonStyle)] }
        let body : GText := { plain := rec.message, colors := colors, style := boldStyle }
        let panel : Panel :=
          { body := body, title := title, titleAlign := "left",
            subtitle := subtitle, subtitleAlign := "right",
            borderStyle := style.add boldStyle, padding := (1, 2) }
        (Except.ok (st', panel), fs', out ++ [panel.plainText])

end RichSink

/-- `get_logger(track_run)`: construct the sink (run argument `None`), then
call `setup` when tracking is enabled; the returned run value is stored in
the logger's `extra` mapping.  Returns the sink state and that extra value. -/
def get_logger (trackRun : Bool) (fs : FS) :
    Except PyErr (SinkSt × Option Int) × FS × List String :=
  match RichSink.init (PyVal.bool trackRun) none fs with
  | (Except.error e, fs1, out1) => (Except.error e, fs1, out1)
  | (Except.ok st, fs1, out1) =>
    if trackRun then
      match RichSink.setup trackRun fs1 with
      | (Except.error e, fs2, out2) => (Except.error e, fs2, out1 ++ out2)
      | (Except.ok v, fs2, out2) => (Except.ok (st, v), fs2, out1 ++ out2)
    else (Except.ok (st, none), fs1, out1)

/-- `console.export_text()`: the concatenation of everything printed. -/
def exportText (buf : List String) : String :=
  String.join buf

/-- `needle` occurs as a substring of `hay`. -/
def containsSubstr (hay needle : String) : Prop :=
  needle.data <:+: hay.data

/-! ### Theorems about the run counter -/

/-- Claim C1: with tracking enabled and the counter file holding the decimal
string of `n`, `increment()` returns `n + 1` and the file afterwards holds
exactly the decimal string of `n + 1`. -/
theorem c1_increment_succ (n : Nat) (fs : FS) (hdir : fs.logsDir = true)
    (hfile : fs.runFile = some (pyStr (n : Int))) :
    RichSink.increment true fs =
      (Except.ok (some ((n + 1 : Nat) : Int)),
        { fs with runFile := some (pyStr ((n + 1 : Nat) : Int)) }, []) := by
  have hcast : ((n : Int) + 1) = ((n + 1 : Nat) : Int) := by push_cast; ring
  simp only [RichSink.increment, RichSink.read, RichSink.write, openReadInt, openWrite,
    hfile, hdir, if_true, pyInt_pyStr_ofNat, hcast]

theorem c1_increment_succ_witness :
    (FS.mk true (some (pyStr ((5 : Nat) : Int)))).logsDir = true ∧
    (FS.mk true (some (pyStr ((5 : Nat) : Int)))).runFile = some (pyStr ((5 : Nat) : Int)) ∧
    RichSink.increment true (FS.mk true (some (pyStr ((5 : Nat) : Int)))) =
      (Except.ok (some ((6 : Nat) : Int)), FS.mk true (some (pyStr ((6 : Nat) : Int))), []) :=
  ⟨rfl, rfl, c1_increment_succ 5 (FS.mk true (some (pyStr ((5 : Nat) : Int)))) rfl rfl⟩

/-- Claim C2: with tracking enabled and the counter file absent, `read()`
raises nothing, returns `0`, and recreates the counter file with content
`"0"` (self-healing through the implicit `setup`). -/
theorem c2_read_self_heals (fs : FS) (hfile : fs.runFile = none) :
    (RichSink.read true fs).1 = Except.ok (some 0) ∧
    (RichSink.read true fs).2.1 = FS.mk true (some "0") := by
  have h0 : pyInt "0" = some 0 := by decide
  cases hdir : fs.logsDir <;>
    · cases fs
      simp only at hdir hfile
      subst hdir; subst hfile
      simp [RichSink.read, RichSink.setup, openReadInt, openWrite, h0]

theorem c2_read_self_heals_witness :
    (FS.mk false none).runFile = none ∧
    ((RichSink.read true (FS.mk false none)).1 = Except.ok (some 0) ∧
      (RichSink.read true (FS.mk false none)).2.1 = FS.mk true (some "0")) :=
  ⟨rfl, c2_read_self_heals (FS.mk false none) rfl⟩

/-- Claim C4: `write(v)` followed by `read()` returns exactly `v` for every
non-negative integer `v`, and in between the counter file's entire content is
the decimal representation of `v`. -/
theorem c4_write_read_roundtrip (v : Nat) (fs : FS) (hdir : fs.logsDir = true) :
    (RichSink.write true (v : Int) fs).1 = Except.ok () ∧
    (RichSink.write true (v : Int) fs).2.runFile = some (pyStr (v : Int)) ∧
    RichSink.read true (RichSink.write true (v : Int) fs).2 =
      (Except.ok (some (v : Int)), (RichSink.write true (v : Int) fs).2, []) := by
  refine ⟨?_, ?_, ?_⟩ <;>
    simp only [RichSink.write, RichSink.read, openWrite, openReadInt, hdir, if_true,
      pyInt_pyStr_ofNat]

theorem c4_write_read_roundtrip_witness :
    (FS.mk true none).logsDir = true ∧
    ((RichSink.write true ((999999 : Nat) : Int) (FS.mk true none)).1 = Except.ok () ∧
      (RichSink.write true ((999999 : Nat) : Int) (FS.mk true none)).2.runFile =
        some (pyStr ((999999 : Nat) : Int)) ∧
      RichSink.read true (RichSink.write true ((999999 : Nat) : Int) (FS.mk true none)).2 =
        (Except.ok (some ((999999 : Nat) : Int)),
          (RichSink.write true ((999999 : Nat) : Int) (FS.mk true none)).2, [])) :=
  ⟨rfl, c4_write_read_roundtrip 999999 (FS.mk true none) rfl⟩

/-- Claim C5: `setup()` on an already-initialized state with persisted value
`n` returns `n`, changes nothing, and a second call returns `n` again — it
never resets a non-zero counter. -/
theorem c5_setup_idempotent (n : Nat) (fs : FS) (hdir : fs.logsDir = true)
    (hfile : fs.runFile = some (pyStr (n : Int))) :
    RichSink.setup true fs = (Except.ok (some (n : Int)), fs, []) ∧
    RichSink.setup true (RichSink.setup true fs).2.1 =
      (Except.ok (some (n : Int)), fs, []) := by
  have h1 : RichSink.setup true fs = (Except.ok (some (n : Int)), fs, []) := by
    simp only [RichSink.setup, openReadInt, hdir, hfile, if_true, pyInt_pyStr_ofNat,
      List.append_nil]
  exact ⟨h1, by rw [h1]; exact h1⟩

theorem c5_setup_idempotent_witness :
    (FS.mk true (some (pyStr ((7 : Nat) : Int)))).logsDir = true ∧
    (FS.mk true (some (pyStr ((7 : Nat) : Int)))).runFile = some (pyStr ((7 : Nat) : Int)) ∧
    RichSink.setup true (FS.mk true (some (pyStr ((7 : Nat) : Int)))) =
      (Except.ok (some ((7 : Nat) : Int)), FS.mk true (some (pyStr ((7 : Nat) : Int))), []) :=
  ⟨rfl, rfl,
    (c5_setup_idempotent 7 (FS.mk true (some (pyStr ((7 : Nat) : Int)))) rfl rfl).1⟩

/-- Claim C9: with tracking disabled, `setup`, `read` and `increment` return
`None`, `write` leaves the counter file untouched, and rendering a record
leaves the filesystem unchanged. -/
theorem c9_disabled_noop (fs : FS) (v : Int) (st : SinkSt) (rec : Record)
    (h : st.track_run = false) :
    RichSink.setup false fs = (Except.ok none, fs, []) ∧
    RichSink.read false fs = (Except.ok none, fs, []) ∧
    RichSink.increment false fs = (Except.ok none, fs, []) ∧
    RichSink.write false v fs = (Except.ok (), fs) ∧
    (RichSink.call st fs rec).2.1 = fs := by
  refine ⟨rfl, rfl, rfl, rfl, ?_⟩
  unfold RichSink.call
  cases List.lookup rec.level RichSink.GRADIENTS with
  | none => rfl
  | some colors =>
    cases List.lookup rec.level RichSink.LEVEL_STYLES with
    | none => rfl
    | some style => simp [h, RichSink.runForSubtitle]

theorem c9_disabled_noop_witness :
    (SinkSt.mk false none).track_run = false ∧
    (RichSink.setup false (FS.mk true (some "3")) =
        (Except.ok none, FS.mk true (some "3"), []) ∧
      RichSink.read false (FS.mk true (some "3")) =
        (Except.ok none, FS.mk true (some "3"), []) ∧
      RichSink.increment false (FS.mk true (some "3")) =
        (Except.ok none, FS.mk true (some "3"), []) ∧
      RichSink.write false 9 (FS.mk true (some "3")) =
        (Except.ok (), FS.mk true (some "3")) ∧
      (RichSink.call (SinkSt.mk false none) (FS.mk true (some "3"))
          (Record.mk "INFO" "app.py" 3 "hi" "01:02:03.000" " AM")).2.1 =
        FS.mk true (some "3")) :=
  ⟨rfl,
    c9_disabled_noop (FS.mk true (some "3")) 9 (SinkSt.mk false none)
      (Record.mk "INFO" "app.py" 3 "hi" "01:02:03.000" " AM") rfl⟩

/-- Claim C10: with tracking enabled, `read` never succeeds with `None`, so
the `None` guard inside `increment` is unreachable and a successful
`increment` always returns a concrete integer. -/
theorem c10_increment_never_none (fs : FS) :
    (RichSink.read true fs).1 ≠ Except.ok none ∧
    ∀ v : Option Int,
      (RichSink.increment true fs).1 = Except.ok v → ∃ n : Int, v = some n := by
  have hread : ∀ fs' : FS, (RichSink.read true fs').1 ≠ Except.ok none := by
    intro fs'
    unfold RichSink.read
    cases hf : fs'.runFile with
    | some s =>
      cases hr : openReadInt fs' <;> simp [hf, hr]
    | none =>
      rcases hs : RichSink.setup true fs' with ⟨res, fs1, out⟩
      cases res with
      | error e => simp [hf, hs]
      | ok u =>
        cases hr : openReadInt fs1 <;> simp [hf, hs, hr]
  refine ⟨hread fs, ?_⟩
  intro v hv
  unfold RichSink.increment at hv
  rcases hr : RichSink.read true fs with ⟨res, fs1, out⟩
  cases res with
  | error e => rw [hr] at hv; simp at hv
  | ok u =>
    cases u with
    | none => exact absurd (by rw [hr]) (hread fs)
    | some n =>
      rw [hr] at hv
      simp only [if_true] at hv
      rcases hw : RichSink.write true (n + 1) fs1 with ⟨wres, fs2⟩
      cases wres with
      | error e => rw [hw] at hv; simp at hv
      | ok u => rw [hw] at hv; simp at hv; exact ⟨n + 1, hv.symm⟩

theorem c10_increment_never_none_witness :
    (RichSink.increment true (FS.mk true (some "4"))).1 = Except.ok (some 5) ∧
    ∃ n : Int, (some 5 : Option Int) = some n :=
  ⟨rfl,
    (c10_increment_never_none (FS.mk true (some "4"))).2 (some 5) rfl⟩

/-- Claim C8: constructing the sink with a non-`bool` `track_run` value fails
immediately with a raised `NotImplementedError` (no filesystem effect, no
output), and a `bool` value is stored without coercion. -/
theorem c8_non_bool_rejected (v : PyVal) (runArg : Option Int) (fs : FS)
    (h : ∀ b : Bool, v ≠ PyVal.bool b) :
    RichSink.init v runArg fs = (Except.error PyErr.notImplemented, fs, []) ∧
    ∀ b : Bool, RichSink.trackRunSetter (PyVal.bool b) = Except.ok b := by
  refine ⟨?_, fun b => rfl⟩
  cases v with
  | bool b => exact absurd rfl (h b)
  | int n => rfl
  | str s => rfl
  | pynone => rfl

theorem c8_non_bool_rejected_witness :
    (∀ b : Bool, PyVal.int 1 ≠ PyVal.bool b) ∧
    (RichSink.init (PyVal.int 1) none (FS.mk false none) =
        (Except.error PyErr.notImplemented, FS.mk false none, []) ∧
      ∀ b : Bool, RichSink.trackRunSetter (PyVal.bool b) = Except.ok b) :=
  ⟨by decide, c8_non_bool_rejected (PyVal.int 1) none (FS.mk false none) (by decide)⟩

/-- Claim C3 (the code violates it): rendering a record whose level `"CUSTOM"`
is not in the style tables raises `KeyError` from the exact-match gradient
lookup in `RichSink.__call__`; no fallback style exists in the code. -/
theorem c3_unknown_level_raises :
    RichSink.call (SinkSt.mk false none) (FS.mk true (some "0"))
        (Record.mk "CUSTOM" "test.py" 1 "custom level" "12:00:00.000" " PM") =
      (Except.error (PyErr.keyError "CUSTOM"), FS.mk true (some "0"), []) := rfl

/-! ### The title construction (Claim C7) -/

/-- Claim C7 as stated: every rendered panel's title has the plain text
`" {LEVEL} | {file} | Line {line} "`, carries the level's gradient, restyles
the separator `"|"` with a style that sets both the `dim` and `italic`
attributes, and is wholly restyled in reverse video. -/
def titleSepDimClaim : Prop :=
  ∀ (st : SinkSt) (fs : FS) (rec : Record) (res : SinkSt × Panel) (fs' : FS)
    (out : List String),
    RichSink.call st fs rec = (Except.ok res, fs', out) →
    res.2.title.plain =
        " " ++ rec.level ++ " | " ++ rec.fileName ++ " | Line " ++
          pyStr (rec.line : Int) ++ " " ∧
    List.lookup rec.level RichSink.GRADIENTS = some res.2.title.colors ∧
    (∃ s : Style, res.2.title.highlights = [("|", s)] ∧
      s.italic = some true ∧ s.dim = some true) ∧
    res.2.title.overlays = [reverseStyle]

/-- The INFO gradient, for the concrete rendering examples. -/
def infoColors : List String := ["#008fff", "#00afff", "#00cfff"]

/-- A concrete INFO record used to exercise the render path. -/
def demoRecord : Record :=
  Record.mk "INFO" "app.py" 42 "hello" "12:00:00.000" " PM"

/-- The panel `RichSink.__call__` builds for `demoRecord` with tracking
disabled. -/
def demoPanel : Panel where
  body := { plain := "hello", colors := infoColors, style := boldStyle }
  title := RichSink.mkTitle "INFO" "app.py" 42 infoColors
  titleAlign := "left"
  subtitle := { plain := "12:00:00.000 PM", highlights := [(":", colonStyle)] }
  subtitleAlign := "right"
  borderStyle := Style.add { color := some "#00afff" } boldStyle
  padding := (1, 2)

/-- Claim C7 as stated is false: the separator highlight style is
`"italic #666666"`, which does not set the `dim` attribute. -/
theorem c7_counterexample : ¬ titleSepDimClaim := by
  intro h
  obtain ⟨-, -, ⟨s, hs, -, hdim⟩, -⟩ :=
    h (SinkSt.mk false none) (FS.mk true (some "0")) demoRecord
      (SinkSt.mk false none, demoPanel) (FS.mk true (some "0"))
      [demoPanel.plainText] rfl
  simp [demoPanel, RichSink.mkTitle, GText.highlightWords, GText.stylize] at hs
  rw [← hs] at hdim
  simp [sepStyle] at hdim

/-- Claim C7 amended: every rendered panel's title has the plain text
`" {LEVEL} | {file} | Line {line} "`, carries the level's gradient, restyles
the separator `"|"` with the italic gray style `"italic #666666"` (not the
`dim` attribute) layered on top of the gradient, and is wholly restyled in
reverse video. -/
theorem c7_title_construction (st : SinkSt) (fs : FS) (rec : Record)
    (res : SinkSt × Panel) (fs' : FS) (out : List String)
    (h : RichSink.call st fs rec = (Except.ok res, fs', out)) :
    res.2.title.plain =
        " " ++ rec.level ++ " | " ++ rec.fileName ++ " | Line " ++
          pyStr (rec.line : Int) ++ " " ∧
    List.lookup rec.level RichSink.GRADIENTS = some res.2.title.colors ∧
    res.2.title.highlights = [("|", sepStyle)] ∧
    sepStyle = { italic := some true, color := some "#666666" } ∧
    res.2.title.overlays = [reverseStyle] ∧
    reverseStyle = { reverse := some true } := by
  unfold RichSink.call at h
  cases hg : List.lookup rec.level RichSink.GRADIENTS with
  | none => rw [hg] at h; simp at h
  | some colors =>
    rw [hg] at h
    cases hsty : List.lookup rec.level RichSink.LEVEL_STYLES with
    | none => rw [hsty] at h; simp at h
    | some style =>
      rw [hsty] at h
      rcases hrun : RichSink.runForSubtitle st.track_run fs with ⟨r, fs1, out1⟩
      rw [hrun] at h
      cases r with
      | error e => simp at h
      | ok runv =>
        simp only [Prod.mk.injEq, Except.ok.injEq] at h
        obtain ⟨hres, -, -⟩ := h
        rw [← hres]
        refine ⟨?_, ?_, ?_, rfl, ?_, rfl⟩ <;>
          simp [RichSink.mkTitle, GText.highlightWords, GText.stylize, hg]

theorem c7_title_construction_witness :
    RichSink.call (SinkSt.mk false none) (FS.mk true (some "0")) demoRecord =
      (Except.ok (SinkSt.mk false none, demoPanel), FS.mk true (some "0"),
        [demoPanel.plainText]) ∧
    ((SinkSt.mk false none, demoPanel).2.title.plain =
        " " ++ demoRecord.level ++ " | " ++ demoRecord.fileName ++ " | Line " ++
          pyStr (demoRecord.line : Int) ++ " " ∧
      List.lookup demoRecord.level RichSink.GRADIENTS =
        some (SinkSt.mk false none, demoPanel).2.title.colors ∧
      (SinkSt.mk false none, demoPanel).2.title.highlights = [("|", sepStyle)] ∧
      sepStyle = { italic := some true, color := some "#666666" } ∧
      (SinkSt.mk false none, demoPanel).2.title.overlays = [reverseStyle] ∧
      reverseStyle = { reverse := some true }) :=
  ⟨rfl,
    c7_title_construction (SinkSt.mk false none) (FS.mk true (some "0")) demoRecord
      (SinkSt.mk false none, demoPanel) (FS.mk true (some "0"))
      [demoPanel.plainText] rfl⟩

/-! ### The end-to-end scenario (Claim C6) -/

theorem string_data_append (a b : String) : (a ++ b).data = a.data ++ b.data := rfl

theorem containsSubstr_append_left (a b n : String) (h : containsSubstr a n) :
    containsSubstr (a ++ b) n := by
  obtain ⟨s, t, e⟩ := h
  exact ⟨s, t ++ b.data, by rw [string_data_append, ← e]; simp⟩

theorem containsSubstr_append_right (a b n : String) (h : containsSubstr b n) :
    containsSubstr (a ++ b) n := by
  obtain ⟨s, t, e⟩ := h
  exact ⟨a.data ++ s, t, by rw [string_data_append, ← e]; simp⟩

theorem containsSubstr_refl (a : String) : containsSubstr a a :=
  ⟨[], [], by simp⟩

/-- The end-to-end scenario of the spec: start from empty storage, build a
tracking-enabled logger via `get_logger`, make one explicit `increment` call,
then render one INFO record with message `"Run initialized"`.  Returns the
filesystem right after the increment, the final filesystem, and the captured
console text. -/
def endToEnd (fname : String) (ln : Nat) (t1 t2 : String) :
    Except PyErr (FS × FS × String) :=
  match get_logger true (FS.mk false none) with
  | (Except.error e, _, _) => Except.error e
  | (Except.ok (st, _run), fs1, out1) =>
    match RichSink.increment st.track_run fs1 with
    | (Except.error e, _, _) => Except.error e
    | (Except.ok _, fs2, out2) =>
      match RichSink.call st fs2 (Record.mk "INFO" fname ln "Run initialized" t1 t2) with
      | (Except.error e, _, _) => Except.error e
      | (Except.ok _, fs3, out3) =>
        Except.ok (fs2, fs3, exportText (out1 ++ out2 ++ out3))

/-- Claim C6: from a fresh storage root, building a tracking-enabled logger,
calling `increment` once, and rendering one INFO record with message
`"Run initialized"` leaves the counter file holding exactly `"1"` (both right
after the increment and at the end), and the captured console text contains
the substrings `"Run 1"` and `"Run initialized"`. -/
theorem c6_end_to_end (fname t1 t2 : String) (ln : Nat) :
    ∃ txt : String,
      endToEnd fname ln t1 t2 =
        Except.ok (FS.mk true (some "1"), FS.mk true (some "1"), txt) ∧
      containsSubstr txt "Run 1" ∧ containsSubstr txt "Run initialized" := by
  refine ⟨_, rfl, ?_, ?_⟩ <;>
    · simp only [exportText, String.join, List.foldl, Panel.plainText]
      first
      | exact containsSubstr_append_right _ _ _
          (containsSubstr_append_left _ _ _ (containsSubstr_append_left _ _ _
            (containsSubstr_append_right _ _ _ (containsSubstr_refl _))))
      | exact containsSubstr_append_right _ _ _
          (containsSubstr_append_right _ _ _
            (containsSubstr_append_left _ _ _ (containsSubstr_append_left _ _ _
              ⟨[], " | ".data, by decide⟩)))

end LoguruRichSink
